import Mathlib

/-!
Verification of the ZenTrack stress-classification engine
(`backend/stress_detector.py`) against its natural-language specification.

The Python module is shallowly embedded: Python floats become real numbers,
lists become Lean lists, optional keyword arguments become `Option`, and a
`raise` becomes the `Except.error` constructor of `DetectorError` (the error
taxonomy of the spec: the Python code distinguishes the same four failure
sites by exception message).  `round(x, 2)` is modelled as rounding
`100 * x` to the nearest integer and dividing by `100`.
-/

noncomputable section

namespace ZenTrack

/-- The spec's error taxonomy; each constructor corresponds to one distinct
`raise` site in `stress_detector.py`. -/
inductive DetectorError where
  | insufficientData
  | missingInput
  | modelNotTrained
  | invalidModelKind
deriving DecidableEq

/-- Python `round(x, 2)`: round to two decimal places. -/
def round2 (x : ℝ) : ℝ := (round (100 * x) : ℤ) / 100

/-- `np.mean`: arithmetic mean of a list. -/
def npMean (l : List ℝ) : ℝ := l.sum / l.length

/-- `np.std` (population standard deviation, `ddof = 0`):
square root of the mean of squared deviations from the mean. -/
def npStd (l : List ℝ) : ℝ :=
  Real.sqrt (npMean (l.map fun x => (x - npMean l) ^ 2))

/-- `np.diff`: successive differences, `d[i] = l[i+1] - l[i]`. -/
def npDiff (l : List ℝ) : List ℝ := l.zipWith (fun a b => b - a) l.tail

/-- The HRV feature dictionary returned by `extract_hrv_features`. -/
structure HRVFeatures where
  mean_hr : ℝ
  sdnn : ℝ
  rmssd : ℝ
  lf_hf : ℝ

/-- `StressDetector.extract_hrv_features`, lines 114-147 of
`stress_detector.py`: guard `not rr_intervals or len(rr_intervals) < 10`,
then the four time-domain features, each rounded to 2 decimals. -/
def extract_hrv_features (rr_intervals : List ℝ) :
    Except DetectorError HRVFeatures :=
  if rr_intervals.isEmpty = true ∨ rr_intervals.length < 10 then
    .error .insufficientData
  else
    let mean_rr := npMean rr_intervals
    let mean_hr := 60000 / mean_rr
    let sdnn := npStd rr_intervals
    let diff_rr := npDiff rr_intervals
    let rmssd := Real.sqrt (npMean (diff_rr.map fun d => d ^ 2))
    let lf_hf := sdnn / (rmssd + 1)
    .ok { mean_hr := round2 mean_hr
          sdnn := round2 sdnn
          rmssd := round2 rmssd
          lf_hf := round2 lf_hf }

/-- `StressDetector.calculate_anxiety_score`, lines 149-159:
the plain sum of the answers, no validation. -/
def calculate_anxiety_score (answers : List ℤ) : ℤ := answers.sum

/-- Whether an `Except` value is a success. -/
def isOkE {ε α : Type} : Except ε α → Bool
  | .ok _ => true
  | .error _ => false

/-! ### Spec-side definitions (from the spec's words, for refinement claims) -/

/-- Spec §4.1: `population_stddev(series)`. -/
def population_stddev (l : List ℝ) : ℝ :=
  Real.sqrt (npMean (l.map fun x => (x - npMean l) ^ 2))

/-- Spec §4.1: successive differences `d[i] = series[i+1] - series[i]`. -/
def successive_diffs (l : List ℝ) : List ℝ :=
  l.zipWith (fun a b => b - a) l.tail

/-- Spec §4.1: `rmssd = sqrt(mean(d^2))`. -/
def spec_rmssd (l : List ℝ) : ℝ :=
  Real.sqrt (npMean ((successive_diffs l).map fun d => d ^ 2))

/-- The feature vector the spec's §4.1 formulas prescribe. -/
def spec_features (l : List ℝ) : HRVFeatures :=
  { mean_hr := round2 (60000 / npMean l)
    sdnn := round2 (population_stddev l)
    rmssd := round2 (spec_rmssd l)
    lf_hf := round2 (population_stddev l / (spec_rmssd l + 1)) }

/-! ### Classifier, scaler, and the prediction path -/

/-- The trained classifier, abstract over sklearn: the capability set
`predict(x) -> label` and `predict_proba(x) -> probabilities` of spec §4.4,
over scaled 5-dimensional feature vectors. -/
structure Model where
  predict : (Fin 5 → ℝ) → Fin 3
  predict_proba : (Fin 5 → ℝ) → Fin 3 → ℝ

/-- The fitted `StandardScaler`: per-feature mean and scale. -/
structure Scaler where
  mean : Fin 5 → ℝ
  scale : Fin 5 → ℝ

/-- `StandardScaler.transform`: z-score normalization with the stored
per-feature mean and scale. -/
def Scaler.transform (sc : Scaler) (x : Fin 5 → ℝ) : Fin 5 → ℝ :=
  fun i => (x i - sc.mean i) / sc.scale i

/-- Line 198-204: the feature vector
`[mean_hr, sdnn, rmssd, lf_hf_ratio, anxiety_score]`. -/
def featureVector (h : HRVFeatures) (score : ℝ) : Fin 5 → ℝ :=
  ![h.mean_hr, h.sdnn, h.rmssd, h.lf_hf, score]

/-- Line 214: `stress_levels = ['Low', 'Moderate', 'High']`, indexed by the
predicted class. -/
def stressLevels (p : Fin 3) : String :=
  ["Low", "Moderate", "High"].get ⟨p.1, p.isLt⟩

/-- The result dictionary of `predict_stress_level` (lines 218-229); the
wall-clock `timestamp` field is the one external effect and is omitted. -/
structure PredictResult where
  stress_level : String
  confidence : ℝ
  prob_low : ℝ
  prob_moderate : ℝ
  prob_high : ℝ
  hrv_features : HRVFeatures
  anxiety_score : ℝ

/-- Lines 213-229: assemble the result from the predicted class `p` and the
probability triple `q` (confidence and probabilities in rounded percent). -/
def mkResult (h : HRVFeatures) (s : ℝ) (p : Fin 3) (q : Fin 3 → ℝ) :
    PredictResult :=
  { stress_level := stressLevels p
    confidence := round2 (q p * 100)
    prob_low := round2 (q 0 * 100)
    prob_moderate := round2 (q 1 * 100)
    prob_high := round2 (q 2 * 100)
    hrv_features := h
    anxiety_score := s }

/-- Lines 197-229: scale the feature vector, run the model, assemble the
result. -/
def predictCore (m : Model) (sc : Scaler) (h : HRVFeatures) (s : ℝ) :
    PredictResult :=
  let xs := sc.transform (featureVector h s)
  mkResult h s (m.predict xs) (m.predict_proba xs)

/-- Python truthiness of the optional `rr_intervals` argument: present and
non-empty. -/
def rrTruthy : Option (List ℝ) → Bool
  | none => false
  | some l => !l.isEmpty

/-- Lines 181-188: the representative HRV vector chosen from the anxiety
score when no HRV features are available. -/
def defaultBucket (s : ℝ) : HRVFeatures :=
  if s < 18 then { mean_hr := 68, sdnn := 85, rmssd := 80, lf_hf := 1.2 }
  else if s < 25 then { mean_hr := 78, sdnn := 55, rmssd := 50, lf_hf := 2.8 }
  else { mean_hr := 92, sdnn := 30, rmssd := 25, lf_hf := 5.2 }

/-- `StressDetector.predict_stress_level`, lines 161-229, with the Python
control flow made explicit: untrained guard; feature extraction when raw
intervals are (truthily) supplied without features; the score-bucket
fallback; the missing-input guard; the score default of 10; then the
classifier. -/
def predict_stress_level (m : Model) (sc : Scaler) (is_trained : Bool)
    (hrv0 : Option HRVFeatures) (score0 : Option ℝ) (rr0 : Option (List ℝ)) :
    Except DetectorError PredictResult :=
  if !is_trained then .error .modelNotTrained
  else
    match (if rrTruthy rr0 && hrv0.isNone then
             (extract_hrv_features (rr0.getD [])).map some
           else .ok hrv0) with
    | .error e => .error e
    | .ok hrv1 =>
      match (match score0, hrv1 with
             | some s, none => some (defaultBucket s)
             | _, _ => hrv1) with
      | none => .error .missingInput
      | some h => .ok (predictCore m sc h (score0.getD 10))

/-- `StressDetector.recommend_therapy`, lines 231-259. -/
def lowRec : String × String × List String :=
  ("music",
   "Your stress level is low. Enjoy some calming music to maintain your peace.",
   ["Music Therapy", "Light Meditation"])

/-- The Moderate entry of the recommendation table (also the fallback). -/
def moderateRec : String × String × List String :=
  ("yoga",
   "Your stress level is moderate. Try yoga or breathing exercises to relax.",
   ["Yoga Therapy", "Breathing Exercises", "Music Therapy"])

/-- The High entry of the recommendation table. -/
def highRec : String × String × List String :=
  ("chatbot",
   "Your stress level is high. Let\x27s talk with our AI assistant for support.",
   ["AI Chatbot Support", "Guided Meditation", "Breathing Exercises"])

/-- Lines 241-259: dictionary lookup with the Moderate entry as
`recommendations.get` default. -/
def recommend_therapy (stress_level : String) : String × String × List String :=
  if stress_level = "Low" then lowRec
  else if stress_level = "Moderate" then moderateRec
  else if stress_level = "High" then highRec
  else moderateRec

/-- `StressDetector._initialize_model`, lines 42-59: construct the
configured classifier or reject the model kind. -/
inductive ModelConfig where
  | randomForest (n_estimators max_depth random_state : ℕ)
  | svm (kernel : String) (C : ℚ) (gamma : String)
        (probability : Bool) (random_state : ℕ)
deriving DecidableEq

/-- Lines 44-59 of `_initialize_model`. -/
def init_model (model_type : String) : Except DetectorError ModelConfig :=
  if model_type = "random_forest" then .ok (.randomForest 100 10 42)
  else if model_type = "svm" then .ok (.svm "rbf" 1 "scale" true 42)
  else .error .invalidModelKind

/-- Line 265 and 274: the artifact filename for a model kind. -/
def artifactName (model_type : String) : String :=
  "stress_model_" ++ model_type ++ ".pkl"

/-- Lines 270-283 (`_load_model`): loading succeeds when both the
kind-keyed model file and the scaler file are present in the store. -/
def loadSucceeds (files : List String) (model_type : String) : Bool :=
  files.contains (artifactName model_type) && files.contains "stress_scaler.pkl"

/-- `StressDetector.__init__`, lines 23-40: try to load the persisted
artifacts; only when that fails validate the kind and train.  Returns
`true` when a pre-trained model was loaded, `false` when freshly trained. -/
def engine_init (files : List String) (model_type : String) :
    Except DetectorError Bool :=
  if loadSucceeds files model_type then .ok true
  else (init_model model_type).map (fun _ => false)

/-! ### Concrete instances used by witnesses -/

/-- A concrete model satisfying the sklearn classifier contract: class 0
with probability 1. -/
def mWit : Model :=
  { predict := fun _ => 0
    predict_proba := fun _ i => if i = 0 then 1 else 0 }

/-- A concrete identity-like scaler. -/
def scWit : Scaler := { mean := fun _ => 0, scale := fun _ => 1 }

/-- A concrete HRV feature dictionary. -/
def hWit : HRVFeatures := { mean_hr := 68, sdnn := 85, rmssd := 80, lf_hf := 1.2 }

/-- The concrete result produced from `hWit` with a defaulted score. -/
def rWit : PredictResult := predictCore mWit scWit hWit 10

/-- The `mean_hr` entry of a successful feature extraction (0 on failure);
projection used to state tolerance claims about the returned value. -/
def mean_hr_of (l : List ℝ) : ℝ :=
  match extract_hrv_features l with
  | .ok f => f.mean_hr
  | .error _ => 0

/-! ### Claims C1, C3, C8 -/

/-- **C1.** For every interval series of length ≥ 10, `extract_hrv_features`
returns exactly the four values of the spec's §4.1 formulas — rounded
`60000 / mean`, rounded population standard deviation, rounded root mean
square of successive differences, and rounded `sdnn / (rmssd + 1)` computed
from the unrounded intermediates — as a pure deterministic function of the
input. -/
theorem C1_extract_matches_spec_formulas (l : List ℝ) (h : 10 ≤ l.length) :
    extract_hrv_features l = .ok (spec_features l) := by
  have hne : l.isEmpty = false := by
    cases l with
    | nil => simp at h
    | cons a t => rfl
  unfold extract_hrv_features spec_features population_stddev spec_rmssd
    successive_diffs npStd npDiff
  rw [if_neg]
  simp [hne]
  omega

/-- Witness for C1: a concrete series of exactly 10 intervals. -/
theorem C1_witness :
    extract_hrv_features
        [800, 810, 790, 805, 795, 815, 800, 790, 805, 800] =
      .ok (spec_features
        [800, 810, 790, 805, 795, 815, 800, 790, 805, 800]) :=
  C1_extract_matches_spec_formulas _ (by simp)

/-- **C3.** `extract_hrv_features` fails with `InsufficientDataError` exactly
when the series has fewer than 10 samples: a 10-sample series succeeds, a
9-sample one fails, and `extract([100,100,100])` fails. -/
theorem C3_insufficient_data_boundary :
    (∀ l : List ℝ,
        extract_hrv_features l = .error .insufficientData ↔ l.length < 10) ∧
    isOkE (extract_hrv_features
      [800, 810, 790, 805, 795, 815, 800, 790, 805, 800]) = true ∧
    extract_hrv_features [800, 810, 790, 805, 795, 815, 800, 790, 805] =
      .error .insufficientData ∧
    extract_hrv_features [100, 100, 100] = .error .insufficientData := by
  refine ⟨fun l => ?_, ?_, ?_, ?_⟩
  · constructor
    · intro hE
      by_contra hlen
      rw [extract_hrv_features, if_neg] at hE
      · exact absurd hE (by simp)
      · push_neg
        refine ⟨?_, by omega⟩
        cases l with
        | nil => simp at hlen
        | cons a t => simp
    · intro hlen
      rw [extract_hrv_features, if_pos (Or.inr hlen)]
  · rw [extract_hrv_features, if_neg (by norm_num)]
    rfl
  · rw [extract_hrv_features, if_pos (by norm_num)]
  · rw [extract_hrv_features, if_pos (by norm_num)]

/-- **C8.** `calculate_anxiety_score` is the plain sum of the answers, with
no range validation: `[0,0,1,0]` gives 1, nine answers of 3 give 27, and
even out-of-range answers are summed unchecked. -/
theorem C8_anxiety_score_is_sum :
    (∀ answers : List ℤ, calculate_anxiety_score answers = answers.sum) ∧
    calculate_anxiety_score [0, 0, 1, 0] = 1 ∧
    calculate_anxiety_score (List.replicate 9 3) = 27 ∧
    calculate_anxiety_score [-5, 100] = 95 := by
  refine ⟨fun answers => rfl, by decide, ?_, by decide⟩
  rw [calculate_anxiety_score, List.sum_replicate]
  rfl

/-! ### Helper lemmas -/

/-- The only error `extract_hrv_features` ever produces is
`insufficientData`. -/
lemma extract_error_eq (l : List ℝ) (e : DetectorError)
    (hE : extract_hrv_features l = .error e) : e = .insufficientData := by
  rw [extract_hrv_features] at hE
  split at hE
  · exact (Except.error.injEq _ _).mp hE.symm
  · exact absurd hE (by simp)

/-- Inversion: every successful `predict_stress_level` result is
`predictCore` applied to some HRV features and the defaulted score. -/
lemma predict_ok_core (m : Model) (sc : Scaler) (hrv0 : Option HRVFeatures)
    (score0 : Option ℝ) (rr0 : Option (List ℝ)) (r : PredictResult)
    (hok : predict_stress_level m sc true hrv0 score0 rr0 = .ok r) :
    ∃ h : HRVFeatures, r = predictCore m sc h (score0.getD 10) := by
  rw [predict_stress_level] at hok
  split at hok
  · exact absurd hok (by simp)
  · split at hok
    · exact absurd hok (by simp)
    · split at hok
      · exact absurd hok (by simp)
      · exact ⟨_, ((Except.ok.injEq _ _).mp hok).symm⟩

/-! ### Claims C4, C5, C6, C9, C10 -/

/-- **C4 (amended).** `predict_stress_level` fails with `MissingInputError`
exactly when no HRV features, no anxiety score, and no *truthy* (non-empty)
interval series are supplied; in particular an explicitly supplied empty
interval series still yields `MissingInputError`. -/
theorem C4_missing_input_iff (m : Model) (sc : Scaler)
    (hrv0 : Option HRVFeatures) (score0 : Option ℝ) (rr0 : Option (List ℝ)) :
    predict_stress_level m sc true hrv0 score0 rr0 = .error .missingInput ↔
      hrv0 = none ∧ score0 = none ∧ rrTruthy rr0 = false := by
  cases hrv0 with
  | some h =>
    simp only [predict_stress_level, rrTruthy]
    cases score0 <;> simp
  | none =>
    cases hT : rrTruthy rr0 with
    | false =>
      cases score0 with
      | some s => simp [predict_stress_level, hT]
      | none => simp [predict_stress_level, hT]
    | true =>
      rcases hE : extract_hrv_features (rr0.getD []) with e | f
      · have he : e = .insufficientData := extract_error_eq _ _ hE
        subst he
        cases score0 <;> simp [predict_stress_level, hT, hE, Except.map]
      · cases score0 <;> simp [predict_stress_level, hT, hE, Except.map]

/-- Counterexample to C4 as stated: supplying an (empty) interval series,
with no features and no score, still fails with `MissingInputError`,
because Python truthiness treats the empty list as absent. -/
theorem C4_counterexample :
    predict_stress_level mWit scWit true none none (some []) =
      .error .missingInput := rfl

/-- **C5.** When only an anxiety score is supplied, the classifier is run on
exactly one of the three fixed representative HRV vectors: the Low bucket
for score < 18, the Moderate bucket for 18 ≤ score < 25, and the High
bucket for score ≥ 25. -/
theorem C5_default_bucket_selection (m : Model) (sc : Scaler) (s : ℝ) :
    (s < 18 → predict_stress_level m sc true none (some s) none =
      .ok (predictCore m sc ⟨68, 85, 80, 1.2⟩ s)) ∧
    (18 ≤ s → s < 25 → predict_stress_level m sc true none (some s) none =
      .ok (predictCore m sc ⟨78, 55, 50, 2.8⟩ s)) ∧
    (25 ≤ s → predict_stress_level m sc true none (some s) none =
      .ok (predictCore m sc ⟨92, 30, 25, 5.2⟩ s)) := by
  refine ⟨fun h1 => ?_, fun h1 h2 => ?_, fun h1 => ?_⟩ <;>
    simp only [predict_stress_level, rrTruthy, Bool.not_true,
      Bool.false_and, Bool.false_eq_true, if_false, defaultBucket] <;>
    norm_num
  · rw [if_pos h1]
  · rw [if_neg (by linarith), if_pos h2]
  · rw [if_neg (by linarith), if_neg (by linarith)]

/-- Witness for C5 at score 5 (< 18): the Low-bucket vector is used. -/
theorem C5_witness :
    predict_stress_level mWit scWit true none (some 5) none =
      .ok (predictCore mWit scWit ⟨68, 85, 80, 1.2⟩ 5) :=
  (C5_default_bucket_selection mWit scWit 5).1 (by norm_num)

/-- **C6.** `recommend_therapy` is a pure total lookup: Low → music with
[Music Therapy, Light Meditation]; Moderate → yoga with [Yoga Therapy,
Breathing Exercises, Music Therapy]; High → chatbot with [AI Chatbot
Support, Guided Meditation, Breathing Exercises]; any other input returns
the Moderate mapping. -/
theorem C6_recommend_therapy_lookup :
    (recommend_therapy "Low").1 = "music" ∧
    (recommend_therapy "Low").2.2 = ["Music Therapy", "Light Meditation"] ∧
    (recommend_therapy "Moderate").1 = "yoga" ∧
    (recommend_therapy "Moderate").2.2 =
      ["Yoga Therapy", "Breathing Exercises", "Music Therapy"] ∧
    (recommend_therapy "High").1 = "chatbot" ∧
    (recommend_therapy "High").2.2 =
      ["AI Chatbot Support", "Guided Meditation", "Breathing Exercises"] ∧
    ∀ s : String, s ≠ "Low" → s ≠ "Moderate" → s ≠ "High" →
      recommend_therapy s = moderateRec := by
  refine ⟨rfl, rfl, rfl, rfl, rfl, rfl, fun s h1 h2 h3 => ?_⟩
  rw [recommend_therapy, if_neg h1, if_neg h2, if_neg h3]

/-- Witness for C6: an unknown stress level falls back to the Moderate
mapping. -/
theorem C6_witness : recommend_therapy "banana" = moderateRec :=
  C6_recommend_therapy_lookup.2.2.2.2.2.2 "banana" (by decide) (by decide)
    (by decide)

/-- **C9 (amended).** When no persisted artifact pair for the requested kind
loads, engine construction fails with `InvalidModelKindError` exactly for
kinds outside {random_forest, svm}; construction with either supported kind
never raises that error.  (When a saved model and scaler for the kind are
present, loading bypasses kind validation entirely.) -/
theorem C9_model_kind_validation (files : List String) (model_type : String)
    (hfresh : loadSucceeds files model_type = false) :
    (engine_init files model_type = .error .invalidModelKind ↔
      model_type ≠ "random_forest" ∧ model_type ≠ "svm") ∧
    (∀ fs : List String,
      engine_init fs "random_forest" ≠ .error .invalidModelKind ∧
      engine_init fs "svm" ≠ .error .invalidModelKind) := by
  constructor
  · rw [engine_init, if_neg (by simp [hfresh]), init_model]
    split_ifs with h1 h2
    · simp [h1, Except.map]
    · simp [h2, Except.map]
    · simp [h1, h2, Except.map]
  · intro fs
    constructor <;> rw [engine_init] <;> split_ifs <;>
      simp [init_model, Except.map]

/-- Witness for C9: with an empty artifact store, the kind "bogus" is
rejected. -/
theorem C9_witness : engine_init [] "bogus" = .error .invalidModelKind :=
  (C9_model_kind_validation [] "bogus" rfl).1.mpr (by decide)

/-- Counterexample to C9 as stated: when a saved model file named for the
unsupported kind and the scaler file both exist, construction loads them
and succeeds — no `InvalidModelKindError` is raised. -/
theorem C9_counterexample :
    engine_init ["stress_model_bogus.pkl", "stress_scaler.pkl"] "bogus" =
      .ok true := by
  rw [engine_init, if_pos (by decide)]

/-- **C10.** Every successful `predict_stress_level` result carries a
non-null `anxiety_score`: the supplied score when given, else the default
value 10. -/
theorem C10_anxiety_score_default (m : Model) (sc : Scaler)
    (hrv0 : Option HRVFeatures) (score0 : Option ℝ) (rr0 : Option (List ℝ))
    (r : PredictResult)
    (hok : predict_stress_level m sc true hrv0 score0 rr0 = .ok r) :
    r.anxiety_score = score0.getD 10 := by
  obtain ⟨h, rfl⟩ := predict_ok_core m sc hrv0 score0 rr0 r hok
  rfl

/-- Witness for C10: with HRV features supplied and no score, the result's
anxiety score is the default 10. -/
theorem C10_witness : rWit.anxiety_score = (none : Option ℝ).getD 10 :=
  C10_anxiety_score_default mWit scWit (some hWit) none none rWit rfl

/-! ### Rounding lemmas and the classification invariants -/

/-- Rounding to two decimals moves a value by at most half a cent. -/
lemma abs_round2_sub (x : ℝ) : |round2 x - x| ≤ 1 / 200 := by
  have h := abs_sub_round (100 * x)
  rw [abs_sub_comm] at h
  have heq : round2 x - x = ((round (100 * x) : ℝ) - 100 * x) / 100 := by
    rw [round2]; ring
  rw [heq, abs_div, abs_of_pos (by norm_num : (0:ℝ) < 100)]
  linarith

/-- Rounding to two decimals is monotone. -/
lemma round2_mono {x y : ℝ} (h : x ≤ y) : round2 x ≤ round2 y := by
  rw [round2, round2]
  have hr : round (100 * x) ≤ round (100 * y) := by
    rw [round_eq, round_eq]
    exact Int.floor_le_floor (by linarith)
  have : ((round (100 * x) : ℤ) : ℝ) ≤ ((round (100 * y) : ℤ) : ℝ) := by
    exact_mod_cast hr
  linarith

/-- Unfolding `predictCore` to `mkResult`. -/
lemma predictCore_def (m : Model) (sc : Scaler) (h : HRVFeatures) (s : ℝ) :
    predictCore m sc h s =
      mkResult h s (m.predict (sc.transform (featureVector h s)))
        (m.predict_proba (sc.transform (featureVector h s))) := rfl

/-- The result-shape invariants, stated for `mkResult` over any predicted
class `p` and probability triple `q` with `q` summing to 1 and `p`
attaining its maximum. -/
lemma mkResult_invariants (h : HRVFeatures) (s : ℝ) (p : Fin 3)
    (q : Fin 3 → ℝ) (hq : q 0 + q 1 + q 2 = 1) (hp : ∀ i, q i ≤ q p) :
    |(mkResult h s p q).prob_low + (mkResult h s p q).prob_moderate +
        (mkResult h s p q).prob_high - 100| ≤ 1 / 10 ∧
    ((mkResult h s p q).stress_level = "Low" ∨
      (mkResult h s p q).stress_level = "Moderate" ∨
      (mkResult h s p q).stress_level = "High") ∧
    ((mkResult h s p q).stress_level = "Low" →
      (mkResult h s p q).confidence = (mkResult h s p q).prob_low) ∧
    ((mkResult h s p q).stress_level = "Moderate" →
      (mkResult h s p q).confidence = (mkResult h s p q).prob_moderate) ∧
    ((mkResult h s p q).stress_level = "High" →
      (mkResult h s p q).confidence = (mkResult h s p q).prob_high) ∧
    (mkResult h s p q).prob_low ≤ (mkResult h s p q).confidence ∧
    (mkResult h s p q).prob_moderate ≤ (mkResult h s p q).confidence ∧
    (mkResult h s p q).prob_high ≤ (mkResult h s p q).confidence := by
  have h100 : (0:ℝ) ≤ 100 := by norm_num
  refine ⟨?_, ?_, ?_, ?_, ?_, ?_, ?_, ?_⟩
  · have ha := abs_round2_sub (q 0 * 100)
    have hb := abs_round2_sub (q 1 * 100)
    have hc := abs_round2_sub (q 2 * 100)
    simp only [mkResult]
    have hrw : round2 (q 0 * 100) + round2 (q 1 * 100) + round2 (q 2 * 100)
        - 100 =
        (round2 (q 0 * 100) - q 0 * 100) + (round2 (q 1 * 100) - q 1 * 100)
          + (round2 (q 2 * 100) - q 2 * 100) := by linarith
    rw [hrw]
    have t1 := abs_add
      (round2 (q 0 * 100) - q 0 * 100 + (round2 (q 1 * 100) - q 1 * 100))
      (round2 (q 2 * 100) - q 2 * 100)
    have t2 := abs_add (round2 (q 0 * 100) - q 0 * 100)
      (round2 (q 1 * 100) - q 1 * 100)
    linarith
  · fin_cases p
    · exact Or.inl rfl
    · exact Or.inr (Or.inl rfl)
    · exact Or.inr (Or.inr rfl)
  · fin_cases p
    · intro _; rfl
    · intro hL; simp only [mkResult] at hL; exact absurd hL (by decide)
    · intro hL; simp only [mkResult] at hL; exact absurd hL (by decide)
  · fin_cases p
    · intro hL; simp only [mkResult] at hL; exact absurd hL (by decide)
    · intro _; rfl
    · intro hL; simp only [mkResult] at hL; exact absurd hL (by decide)
  · fin_cases p
    · intro hL; simp only [mkResult] at hL; exact absurd hL (by decide)
    · intro hL; simp only [mkResult] at hL; exact absurd hL (by decide)
    · intro _; rfl
  · exact round2_mono (mul_le_mul_of_nonneg_right (hp 0) h100)
  · exact round2_mono (mul_le_mul_of_nonneg_right (hp 1) h100)
  · exact round2_mono (mul_le_mul_of_nonneg_right (hp 2) h100)

/-- **C2.** Under the classifier contract (the probability triple sums to 1
and `predict` returns a class of maximal probability), every successful
`predict_stress_level` result has its three probability entries summing to
100 within 0.1, its `stress_level` attaining the maximum of the triple, and
its `confidence` equal to the probability entry of the returned level. -/
theorem C2_classification_invariants (m : Model) (sc : Scaler)
    (hsum : ∀ x, m.predict_proba x 0 + m.predict_proba x 1 +
      m.predict_proba x 2 = 1)
    (hmax : ∀ x i, m.predict_proba x i ≤ m.predict_proba x (m.predict x))
    (hrv0 : Option HRVFeatures) (score0 : Option ℝ) (rr0 : Option (List ℝ))
    (r : PredictResult)
    (hok : predict_stress_level m sc true hrv0 score0 rr0 = .ok r) :
    |r.prob_low + r.prob_moderate + r.prob_high - 100| ≤ 1 / 10 ∧
    (r.stress_level = "Low" ∨ r.stress_level = "Moderate" ∨
      r.stress_level = "High") ∧
    (r.stress_level = "Low" → r.confidence = r.prob_low) ∧
    (r.stress_level = "Moderate" → r.confidence = r.prob_moderate) ∧
    (r.stress_level = "High" → r.confidence = r.prob_high) ∧
    r.prob_low ≤ r.confidence ∧ r.prob_moderate ≤ r.confidence ∧
    r.prob_high ≤ r.confidence := by
  obtain ⟨h, rfl⟩ := predict_ok_core m sc hrv0 score0 rr0 r hok
  rw [predictCore_def]
  exact mkResult_invariants h (score0.getD 10) _ _ (hsum _) (fun i => hmax _ i)

/-- Witness for C2 at a concrete classifier, scaler, and input. -/
theorem C2_witness :
    |rWit.prob_low + rWit.prob_moderate + rWit.prob_high - 100| ≤ 1 / 10 ∧
    (rWit.stress_level = "Low" ∨ rWit.stress_level = "Moderate" ∨
      rWit.stress_level = "High") ∧
    (rWit.stress_level = "Low" → rWit.confidence = rWit.prob_low) ∧
    (rWit.stress_level = "Moderate" → rWit.confidence = rWit.prob_moderate) ∧
    (rWit.stress_level = "High" → rWit.confidence = rWit.prob_high) ∧
    rWit.prob_low ≤ rWit.confidence ∧ rWit.prob_moderate ≤ rWit.confidence ∧
    rWit.prob_high ≤ rWit.confidence :=
  C2_classification_invariants mWit scWit
    (fun x => by norm_num [mWit, Fin.ext_iff])
    (fun x i => by fin_cases i <;> norm_num [mWit, Fin.ext_iff])
    (some hWit) none none rWit rfl

/-! ### Claim C7 -/

/-- The ten-element constant series used as concrete input for C7. -/
lemma npMean_replicate : npMean (List.replicate 10 (801:ℝ)) = 801 := by
  rw [npMean, List.sum_replicate, List.length_replicate]
  simp [nsmul_eq_mul]

/-- On an accepted series, the returned `mean_hr` is the rounded
`60000 / mean`. -/
lemma mean_hr_of_eq (l : List ℝ) (h : 10 ≤ l.length) :
    mean_hr_of l = round2 (60000 / npMean l) := by
  have hne : l.isEmpty = false := by
    cases l with
    | nil => simp at h
    | cons a t => rfl
  rw [mean_hr_of, extract_hrv_features, if_neg (by simp [hne]; omega)]

/-- Concrete rounding fact: `60000/801` in hundredths rounds to 7491. -/
lemma round_6000000_div_801 : round ((6000000:ℝ) / 801) = 7491 := by
  rw [round_eq]
  apply Int.floor_eq_iff.mpr
  constructor <;> norm_num

/-- **C7 (amended).** For every accepted interval series, the returned
`mean_hr` is `60000 / mean(series)` rounded to two decimals, hence within
0.005 absolute tolerance of `60000 / mean(series)` (not within 1e-6
relative tolerance in general). -/
theorem C7_mean_hr_rounded (l : List ℝ) (h : 10 ≤ l.length) :
    mean_hr_of l = round2 (60000 / npMean l) ∧
    |mean_hr_of l - 60000 / npMean l| ≤ 1 / 200 := by
  refine ⟨mean_hr_of_eq l h, ?_⟩
  rw [mean_hr_of_eq l h]
  exact abs_round2_sub _

/-- Witness for C7 on a concrete ten-element series. -/
theorem C7_witness :
    mean_hr_of (List.replicate 10 (801:ℝ)) =
      round2 (60000 / npMean (List.replicate 10 (801:ℝ))) ∧
    |mean_hr_of (List.replicate 10 (801:ℝ)) -
        60000 / npMean (List.replicate 10 (801:ℝ))| ≤ 1 / 200 :=
  C7_mean_hr_rounded _ (by simp)

/-- Counterexample to C7 as stated: on the constant series of ten 801 ms
intervals, the returned `mean_hr` (74.91) differs from `60000 / 801` by
about 3.6e-3, far beyond 1e-6 relative tolerance. -/
theorem C7_counterexample :
    ¬ (|mean_hr_of (List.replicate 10 (801:ℝ)) -
          60000 / npMean (List.replicate 10 (801:ℝ))| ≤
        1 / 1000000 * (60000 / npMean (List.replicate 10 (801:ℝ)))) := by
  rw [mean_hr_of_eq _ (by simp), npMean_replicate, round2]
  rw [show (100:ℝ) * (60000 / 801) = 6000000 / 801 by norm_num,
    round_6000000_div_801]
  rw [show ((7491:ℤ):ℝ) / 100 - 60000 / 801 = 291 / 80100 by norm_num]
  rw [abs_of_pos (by norm_num)]
  norm_num

end ZenTrack
